import Mathlib

/-!
Verification of the document-classification core of the gmail-receipt-scanner
repository (`src/document_processor.py`), as a shallow embedding in Lean 4.

Modelling conventions:
* Python strings are Lean `String`s; character-level operations (`lower`,
  `strip`, slicing, substring search, occurrence counting) are implemented on
  `List Char`, matching Python's code-point semantics.  `Char.toLower` is
  exact on ASCII; non-ASCII letters pass through unchanged (every keyword in
  the lexicon is already lowercase, so keyword matching is unaffected).
* Calls into external libraries are modelled as explicit inputs ("oracles"):
  `langdetect.detect` becomes a `detected : Option String` argument (`none`
  models the call raising), `re.findall` over the amount patterns becomes an
  `amounts_found : List String` argument (the concatenated match list), the
  per-page `PyPDF2` page extraction becomes a `List (Option String)` (a
  `none` entry models `extract_text()` raising on that page), OCR and UTF-8
  decoding become plain `String` arguments.  The two bonus `re.search` calls
  are alternations of string literals and are modelled exactly as substring
  tests.  `_extract_financial_links` is `re.findall` plus `list(set(...))`;
  it is modelled as a `links : List String` argument (already deduplicated,
  order unspecified).
* Python truthiness on strings (`if not text`) is equality with `""`.
-/

/-- Python `str.lower()` restricted to ASCII case mapping (see header note). -/
def pyLower (s : List Char) : List Char :=
  s.map Char.toLower

/-- Python `str.strip()`: drop leading and trailing whitespace. -/
def pyStrip (s : List Char) : List Char :=
  ((s.dropWhile Char.isWhitespace).reverse.dropWhile Char.isWhitespace).reverse

/-- Python slicing `s[:n]`: the first `n` code points of `s`. -/
def pySlice (s : String) (n : Nat) : String :=
  ⟨s.data.take n⟩

/-- Python's substring test `needle in hay`. -/
def pyIn (needle : List Char) : List Char → Bool
  | [] => needle.isEmpty
  | c :: rest => needle.isPrefixOf (c :: rest) || pyIn needle rest

/-- Fuel-driven worker for `pyCount`.  The fuel starts at the haystack length,
which bounds the number of recursive steps. -/
def pyCountAux : Nat → List Char → List Char → Nat
  | 0, _, _ => 0
  | fuel + 1, needle, hay =>
    match hay with
    | [] => 0
    | _ :: rest =>
      if !needle.isEmpty && needle.isPrefixOf hay then
        1 + pyCountAux fuel needle (hay.drop needle.length)
      else
        pyCountAux fuel needle rest

/-- Python `haystack.count(needle)` for a nonempty needle: the number of
non-overlapping occurrences, scanning left to right.  (Python returns
`len + 1` for an empty needle; the lexicon never contains one.) -/
def pyCount (needle hay : List Char) : Nat :=
  pyCountAux hay.length needle hay

/-- The constructor table `self.financial_keywords`: language code to keyword list. -/
def financial_keywords : List (String × List String) :=
  [ ("ru", ["квитанция", "чек", "счет", "оплата", "платеж", "сумма",
            "итого", "к доплате", "банк", "карта", "наличные",
            "услуги", "товары", "покупка", "руб", "рубл"]),
    ("en", ["receipt", "invoice", "bill", "payment", "total", "amount",
            "purchase", "transaction", "card", "cash", "bank", "due",
            "subtotal", "tax", "service", "goods"]),
    ("de", ["rechnung", "quittung", "zahlung", "summe", "gesamt",
            "betrag", "kauf", "bank", "karte", "bar"]),
    ("fr", ["facture", "reçu", "paiement", "total", "montant",
            "achat", "banque", "carte", "espèces"]) ]

/-- Dictionary lookup `self.financial_keywords[lang]`. -/
def lookupKeywords (lang : String) : Option (List String) :=
  (financial_keywords.find? (fun p => p.1 == lang)).map Prod.snd

/-- One iteration of the inner keyword loop: `if keyword in text_lower:
keywords_found.append(keyword); keyword_count += text_lower.count(keyword)`. -/
def scanStep (text_lower : List Char) (acc : List String × Nat) (kw : String) :
    List String × Nat :=
  if pyIn kw.data text_lower then
    (acc.1 ++ [kw], acc.2 + pyCount kw.data text_lower)
  else
    acc

/-- The keyword loop body for one language: skip languages absent from the
lexicon, otherwise scan every keyword of that language in order. -/
def scanLang (text_lower : List Char) (acc : List String × Nat) (lang : String) :
    List String × Nat :=
  match lookupKeywords lang with
  | none => acc
  | some kws => kws.foldl (scanStep text_lower) acc

/-- The word alternation of the first bonus pattern
`r'(invoice|счет|facture|rechnung)'`. -/
def invoice_words : List String := ["invoice", "счет", "facture", "rechnung"]

/-- The word alternation of the second bonus pattern
`r'(receipt|квитанция|reçu|quittung)'`. -/
def receipt_words : List String := ["receipt", "квитанция", "reçu", "quittung"]

/-- A `re.search` for an alternation of literal words: some word occurs as a
substring. -/
def hasAnyWord (words : List String) (text_lower : List Char) : Bool :=
  words.any (fun w => pyIn w.data text_lower)

/-- The score formula of `_analyze_financial_content`, lines 198–207. -/
def financial_score_of (keyword_count namounts : Nat)
    (hasInvoice hasReceipt : Bool) : Nat :=
  min (keyword_count * 2) 20 + min (namounts * 5) 20
    + (if hasInvoice then 10 else 0) + (if hasReceipt then 10 else 0)

/-- Lines 172–178: the detected language, normalized to a lexicon key.
`detected` is the result of `langdetect.detect(text)`; `none` models the
call raising (the bare `except` branch). -/
def detected_language (detected : Option String) : String :=
  match detected with
  | none => "en"
  | some l => if (lookupKeywords l).isSome then l else "en"

/-- Lines 184–190: the keyword loop over `[language, 'en']`, returning
`(keywords_found, keyword_count)` before any truncation. -/
def scan_keywords (text_lower : List Char) (language : String) :
    List String × Nat :=
  [language, "en"].foldl (scanLang text_lower) ([], 0)

/-- The dictionary returned by `_analyze_financial_content`. -/
structure Analysis where
  is_financial : Bool
  score : Nat
  language : String
  keywords : List String
  amounts : List String
deriving Repr, DecidableEq

/-- The function `_analyze_financial_content(text)`.  `detected` is the result of
`langdetect.detect(text)` (`none` = the call raised); `amounts_found` is the
concatenation of the `re.findall` results over the six amount patterns. -/
def analyze_financial_content (text : String) (detected : Option String)
    (amounts_found : List String) : Analysis :=
  let text_lower := pyLower text.data
  let language := detected_language detected
  let scanned := scan_keywords text_lower language
  let score := financial_score_of scanned.2 amounts_found.length
    (hasAnyWord invoice_words text_lower) (hasAnyWord receipt_words text_lower)
  { is_financial := decide (15 ≤ score) || decide (0 < amounts_found.length),
    score := score,
    language := language,
    keywords := scanned.1.take 5,
    amounts := amounts_found.take 3 }

/-- The function `_extract_from_pdf`: pages are consumed in order, each contributing its
text plus `"\n"`; a raising page (`none`) stops the loop and the text
accumulated so far is returned.  A failure to even construct the reader is the
degenerate case `none :: _` with nothing accumulated. -/
def extract_from_pdf : List (Option String) → String
  | [] => ""
  | none :: _ => ""
  | some p :: rest => p ++ "\n" ++ extract_from_pdf rest

/-- The function `_extract_text(file_data, mime_type)`.  The three media branches are
oracle inputs (see header); an unrecognized media type leaves `text = ""`.
The result is always stripped.  The Python `try/except` around the branches
returns `""` on an exception; every branch of this model is total, so the
function is total into `String` — the "never raises" guarantee. -/
def extract_text (mime_type : String) (pdfPages : List (Option String))
    (imageText decodedText : String) : String :=
  let text :=
    if mime_type = "application/pdf" then extract_from_pdf pdfPages
    else if "image/".data.isPrefixOf mime_type.data then imageText
    else if "text/".data.isPrefixOf mime_type.data then decodedText
    else ""
  ⟨pyStrip text.data⟩

/-- The result dictionary built by `process_attachment` /
`analyze_email_content`. -/
structure DocResult where
  filename : String
  mime_type : String
  text : String
  language : String
  financial_score : Nat
  amounts_found : List String
  keywords_found : List String
deriving Repr, DecidableEq

/-- The function `process_attachment(file_data, filename, mime_type)`: extract text,
return `None` when it is empty, otherwise analyze and return a result
dictionary only when `is_financial`. -/
def process_attachment (filename mime_type : String)
    (pdfPages : List (Option String)) (imageText decodedText : String)
    (detected : Option String) (amounts_found : List String) :
    Option DocResult :=
  let text := extract_text mime_type pdfPages imageText decodedText
  if text = "" then none
  else
    let analysis := analyze_financial_content text detected amounts_found
    if analysis.is_financial then
      some { filename := filename,
             mime_type := mime_type,
             text := pySlice text 1000,
             language := analysis.language,
             financial_score := analysis.score,
             amounts_found := analysis.amounts,
             keywords_found := analysis.keywords }
    else none

/-- The function `analyze_email_content(email_body, subject)`.  `links` is the result of
`_extract_financial_links(email_body)` (regex matches, deduplicated via
`list(set(...))`). -/
def analyze_email_content (email_body subject : String)
    (detected : Option String) (amounts_found : List String)
    (links : List String) : Option DocResult :=
  let full_text := subject ++ "\n" ++ email_body
  if (⟨pyStrip full_text.data⟩ : String) = "" then none
  else
    let analysis := analyze_financial_content full_text detected amounts_found
    let score := if links.isEmpty then analysis.score
                 else analysis.score + links.length * 3
    let keywords := if links.isEmpty then analysis.keywords
                    else analysis.keywords
                      ++ (links.take 3).map
                        (fun l => "link:" ++ pySlice l 30 ++ "...")
    if analysis.is_financial then
      some { filename := "email_content",
             mime_type := "text/html",
             text := pySlice full_text 1000,
             language := analysis.language,
             financial_score := min score 100,
             amounts_found := analysis.amounts,
             keywords_found := keywords }
    else none

/-- The text accumulated by the page loop of `_extract_from_pdf` after the
pages of `good` were processed successfully. -/
def concatPages (good : List String) : String :=
  good.foldr (fun p acc => p ++ "\n" ++ acc) ""

/-! ## Projection lemmas for `_analyze_financial_content` -/

lemma analyze_score (text : String) (detected : Option String)
    (amounts_found : List String) :
    (analyze_financial_content text detected amounts_found).score
      = financial_score_of
          (scan_keywords (pyLower text.data) (detected_language detected)).2
          amounts_found.length
          (hasAnyWord invoice_words (pyLower text.data))
          (hasAnyWord receipt_words (pyLower text.data)) := rfl

lemma analyze_is_financial (text : String) (detected : Option String)
    (amounts_found : List String) :
    (analyze_financial_content text detected amounts_found).is_financial
      = (decide (15 ≤ (analyze_financial_content text detected amounts_found).score)
          || decide (0 < amounts_found.length)) := rfl

lemma analyze_language (text : String) (detected : Option String)
    (amounts_found : List String) :
    (analyze_financial_content text detected amounts_found).language
      = detected_language detected := rfl

lemma analyze_keywords (text : String) (detected : Option String)
    (amounts_found : List String) :
    (analyze_financial_content text detected amounts_found).keywords
      = (scan_keywords (pyLower text.data) (detected_language detected)).1.take 5
      := rfl

lemma analyze_amounts (text : String) (detected : Option String)
    (amounts_found : List String) :
    (analyze_financial_content text detected amounts_found).amounts
      = amounts_found.take 3 := rfl

/-! ## Bounds on the score formula -/

lemma financial_score_of_le_60 (kc n : Nat) (hi hr : Bool) :
    financial_score_of kc n hi hr ≤ 60 := by
  unfold financial_score_of
  have h1 := Nat.min_le_right (kc * 2) 20
  have h2 := Nat.min_le_right (n * 5) 20
  cases hi <;> cases hr <;> simp <;> omega

lemma financial_score_of_ge_amount (kc n : Nat) (hi hr : Bool) (h : 1 ≤ n) :
    5 ≤ financial_score_of kc n hi hr := by
  unfold financial_score_of
  have h2 : 5 ≤ min (n * 5) 20 := by
    have : 5 ≤ n * 5 := by omega
    omega
  omega

lemma analyze_min_score (text : String) (detected : Option String)
    (amounts_found : List String)
    (h : (analyze_financial_content text detected amounts_found).is_financial
          = true) :
    5 ≤ (analyze_financial_content text detected amounts_found).score := by
  rw [analyze_is_financial] at h
  simp only [Bool.or_eq_true, decide_eq_true_eq] at h
  rcases h with h | h
  · omega
  · rw [analyze_score]
    exact financial_score_of_ge_amount _ _ _ _ h

/-! ## The keyword scan as an accumulator fold -/

lemma scanStep_acc (tl : List Char) (kws : List String)
    (acc : List String × Nat) :
    kws.foldl (scanStep tl) acc
      = (acc.1 ++ (kws.foldl (scanStep tl) ([], 0)).1,
         acc.2 + (kws.foldl (scanStep tl) ([], 0)).2) := by
  induction kws generalizing acc with
  | nil => simp
  | cons kw kws ih =>
    simp only [List.foldl_cons]
    rw [ih (scanStep tl acc kw), ih (scanStep tl ([], 0) kw)]
    unfold scanStep
    split <;> simp [Nat.add_assoc]

lemma scanLang_acc (tl : List Char) (acc : List String × Nat) (lang : String) :
    scanLang tl acc lang
      = (acc.1 ++ (scanLang tl ([], 0) lang).1,
         acc.2 + (scanLang tl ([], 0) lang).2) := by
  unfold scanLang
  cases lookupKeywords lang with
  | none => simp
  | some kws => exact scanStep_acc tl kws acc

lemma scan_keywords_en (tl : List Char) :
    scan_keywords tl "en"
      = ((scanLang tl ([], 0) "en").1 ++ (scanLang tl ([], 0) "en").1,
         (scanLang tl ([], 0) "en").2 + (scanLang tl ([], 0) "en").2) := by
  unfold scan_keywords
  simp only [List.foldl_cons, List.foldl_nil]
  rw [scanLang_acc]

/-! ## PDF page accumulation -/

lemma extract_from_pdf_accum (good : List String)
    (rest : List (Option String)) :
    extract_from_pdf (good.map some ++ none :: rest) = concatPages good := by
  induction good with
  | nil => rfl
  | cons g gs ih =>
    simp only [List.map_cons, List.cons_append, extract_from_pdf, concatPages,
      List.foldr_cons, List.append_eq]
    rw [ih]
    rfl

/-! ## Claim theorems -/

/-- C1: for every input text (and every outcome of language detection and of
the amount-pattern matching), the classifier's decision is
`is_financial = (score >= 15) OR (amount matches before truncation > 0)`;
in particular a single matched amount makes `is_financial` true regardless
of the keyword score. -/
theorem C1_decision_rule (text : String) (detected : Option String)
    (amounts_found : List String) :
    (analyze_financial_content text detected amounts_found).is_financial
      = (decide (15 ≤ (analyze_financial_content text detected amounts_found).score)
          || decide (0 < amounts_found.length)) := rfl

/-- C4: the reported `financial_score` is at most 100 in email-body mode
(scores are naturals, so the lower bound 0 is inherent), and the score
computed by `_analyze_financial_content` — which attachment mode reports
unchanged — is at most 60 without any explicit cap. -/
theorem C4_score_bounds (email_body subject : String) (d : Option String)
    (a links : List String) (text : String) (d2 : Option String)
    (a2 : List String) :
    ((analyze_email_content email_body subject d a links).map
        DocResult.financial_score).getD 0 ≤ 100
    ∧ (analyze_financial_content text d2 a2).score ≤ 60 := by
  constructor
  · simp only [analyze_email_content]
    split
    · simp
    · split
      · simp only [Option.map_some', Option.getD_some]
        exact min_le_right _ 100
      · simp
  · rw [analyze_score]
    exact financial_score_of_le_60 _ _ _ _

/-- C7: every reported `amounts_found` list has at most 3 entries, and every
reported `keywords_found` list has at most 5 entries in attachment mode and
at most 8 (5 keywords plus up to 3 link labels) in email-body mode. -/
theorem C7_list_caps (filename mime : String) (pdf : List (Option String))
    (img dec : String) (d : Option String) (a : List String)
    (email_body subject : String) (d2 : Option String) (a2 links : List String) :
    ((process_attachment filename mime pdf img dec d a).map
        (fun r => r.amounts_found.length)).getD 0 ≤ 3
    ∧ ((process_attachment filename mime pdf img dec d a).map
        (fun r => r.keywords_found.length)).getD 0 ≤ 5
    ∧ ((analyze_email_content email_body subject d2 a2 links).map
        (fun r => r.amounts_found.length)).getD 0 ≤ 3
    ∧ ((analyze_email_content email_body subject d2 a2 links).map
        (fun r => r.keywords_found.length)).getD 0 ≤ 8 := by
  refine ⟨?_, ?_, ?_, ?_⟩
  · simp only [process_attachment]
    split
    · simp
    · split
      · simp only [Option.map_some', Option.getD_some, analyze_amounts,
          List.length_take]
        omega
      · simp
  · simp only [process_attachment]
    split
    · simp
    · split
      · simp only [Option.map_some', Option.getD_some, analyze_keywords,
          List.length_take]
        omega
      · simp
  · simp only [analyze_email_content]
    split
    · simp
    · split
      · simp only [Option.map_some', Option.getD_some, analyze_amounts,
          List.length_take]
        omega
      · simp
  · simp only [analyze_email_content]
    split
    · simp
    · split
      · simp only [Option.map_some', Option.getD_some]
        split
        · simp only [analyze_keywords, List.length_take]
          omega
        · simp only [List.length_append, List.length_map, analyze_keywords,
            List.length_take]
          omega
      · simp

/-- C10: every result returned by email-body analysis carries filename
`"email_content"` and mime type `"text/html"`, whatever the body, subject
and oracle outcomes are. -/
theorem C10_email_metadata (email_body subject : String) (d : Option String)
    (a links : List String) :
    (analyze_email_content email_body subject d a links).all
      (fun r => r.filename == "email_content" && r.mime_type == "text/html")
      = true := by
  simp only [analyze_email_content]
  split
  · rfl
  · split
    · simp
    · rfl

/-- C2 counterexample: with the detected language already `"en"`, the English
keyword list is scanned twice, so a single occurrence of `"receipt"` is
reported twice in `keywords_found` — the list is not deduplicated — and
counted twice toward the score (`min(2*2,20) + 10 = 14`, not `12`). -/
theorem C2_counterexample :
    (analyze_financial_content "receipt" (some "en") []).keywords
        = ["receipt", "receipt"]
    ∧ ¬ (analyze_financial_content "receipt" (some "en") []).keywords.Nodup
    ∧ (analyze_financial_content "receipt" (some "en") []).score = 14 := by
  refine ⟨by decide, by decide, by decide⟩

/-- C2 amended: the keyword scorer scans the detected language's list and
then the English list without removing the repetition, so when the detected
language is `"en"` the English keywords are scanned twice: the
pre-truncation `keywords_found` is the single-scan list concatenated with
itself (then truncated to 5) and every matched keyword's occurrences are
counted twice toward the score; no deduplication is applied. -/
theorem C2_amended_en_double_scan (text : String) (amounts : List String) :
    (analyze_financial_content text (some "en") amounts).keywords
      = ((scanLang (pyLower text.data) ([], 0) "en").1
          ++ (scanLang (pyLower text.data) ([], 0) "en").1).take 5
    ∧ (analyze_financial_content text (some "en") amounts).score
      = financial_score_of
          ((scanLang (pyLower text.data) ([], 0) "en").2
            + (scanLang (pyLower text.data) ([], 0) "en").2)
          amounts.length
          (hasAnyWord invoice_words (pyLower text.data))
          (hasAnyWord receipt_words (pyLower text.data)) := by
  have hlang : detected_language (some "en") = "en" := rfl
  constructor
  · rw [analyze_keywords, hlang, scan_keywords_en]
  · rw [analyze_score, hlang, scan_keywords_en]

/-- C3 counterexample: four extracted links boost the score by `4 * 3 = 12`,
not by `3 * min(4, 3) = 9`: an email whose base score is 5 (one amount
match) is reported with score 17, while the claim predicts 14. -/
theorem C3_counterexample :
    (analyze_email_content "" "x" none ["9.99"] ["a", "b", "c", "d"]).map
        DocResult.financial_score = some 17
    ∧ (analyze_financial_content ("x" ++ "\n" ++ "") none ["9.99"]).score
        + 3 * min 4 3 = 14 := by
  refine ⟨by decide, by decide⟩

/-- C3 amended: in email-body mode the link boost is `3 * len(links)` with no
cap on the number of links; only the synthetic keyword labels are limited to
the first 3 links; the reported score is `min(base + 3*len(links), 100)`. -/
theorem C3_amended_link_boost (email_body subject : String)
    (d : Option String) (a links : List String) :
    (analyze_email_content email_body subject d a links).map
        DocResult.financial_score
      = (analyze_email_content email_body subject d a links).map (fun _ =>
          min ((analyze_financial_content (subject ++ "\n" ++ email_body) d a).score
            + links.length * 3) 100) := by
  simp only [analyze_email_content]
  split
  · rfl
  · split
    · simp only [Option.map_some']
      split
      · rename_i hl
        simp only [List.isEmpty_iff] at hl
        simp [hl]
      · rfl
    · rfl

/-- C5: for every declared media type and every extraction outcome, text
extraction is a total function into `String` (the modelled `try/except`
shape): an unsupported media type yields the empty string, and a PDF whose
page extraction raises mid-document yields the (stripped) text accumulated
from the pages processed so far rather than an error. -/
theorem C5_extraction_never_raises (mime : String) (pdf : List (Option String))
    (img dec : String) (good : List String) (rest : List (Option String)) :
    (mime ≠ "application/pdf" →
      "image/".data.isPrefixOf mime.data = false →
      "text/".data.isPrefixOf mime.data = false →
      extract_text mime pdf img dec = "")
    ∧ extract_text "application/pdf" (good.map some ++ none :: rest) img dec
        = ⟨pyStrip (concatPages good).data⟩ := by
  constructor
  · intro h1 h2 h3
    simp only [extract_text]
    rw [if_neg h1, if_neg (by simp [h2]), if_neg (by simp [h3])]
    rfl
  · have hpdf : extract_text "application/pdf" (good.map some ++ none :: rest)
        img dec
        = ⟨pyStrip (extract_from_pdf (good.map some ++ none :: rest)).data⟩ :=
      rfl
    rw [hpdf, extract_from_pdf_accum]

/-- C5 witness: a concrete unsupported media type yields `""`, and a
three-page PDF raising on its second page yields the first page's text. -/
theorem C5_witness :
    extract_text "application/octet-stream" [] "x" "y" = ""
    ∧ extract_text "application/pdf" [some "A", none, some "B"] "x" "y"
        = ⟨pyStrip (concatPages ["A"]).data⟩ :=
  ⟨(C5_extraction_never_raises "application/octet-stream" [] "x" "y" [] []).1
      (by decide) (by decide) (by decide),
   (C5_extraction_never_raises "" [] "x" "y" ["A"] [some "B"]).2⟩

/-- C6: empty or whitespace-only input yields no result: in email-body mode
a whitespace-only subject+body combination returns `None`, and in attachment
mode an empty extracted text returns `None`. -/
theorem C6_empty_input_no_result (email_body subject : String)
    (d : Option String) (a links : List String) (filename mime : String)
    (pdf : List (Option String)) (img dec : String) (d2 : Option String)
    (a2 : List String) :
    ((⟨pyStrip (subject ++ "\n" ++ email_body).data⟩ : String) = "" →
      analyze_email_content email_body subject d a links = none)
    ∧ (extract_text mime pdf img dec = "" →
      process_attachment filename mime pdf img dec d2 a2 = none) := by
  constructor
  · intro h
    simp only [analyze_email_content]
    rw [if_pos h]
  · intro h
    simp only [process_attachment]
    rw [if_pos h]

/-- C6 witness: a whitespace-only subject with empty body yields `None`, and
an attachment of an unsupported media type (empty extracted text) yields
`None`. -/
theorem C6_witness :
    analyze_email_content "" " " none [] [] = none
    ∧ process_attachment "f" "application/zip" [] "" "" none [] = none :=
  ⟨(C6_empty_input_no_result "" " " none [] [] "f" "application/zip" [] "" ""
      none []).1 (by decide),
   (C6_empty_input_no_result "" " " none [] [] "f" "application/zip" [] "" ""
      none []).2 (by decide)⟩

lemma mem_keys_of_lookup (l : String)
    (h : (lookupKeywords l).isSome = true) :
    l ∈ financial_keywords.map Prod.fst := by
  unfold lookupKeywords at h
  cases hf : financial_keywords.find? (fun p => p.1 == l) with
  | none => rw [hf] at h; simp at h
  | some q =>
    have hq := List.find?_some hf
    have hm := List.mem_of_find?_eq_some hf
    simp only [beq_iff_eq] at hq
    rw [← hq]
    exact List.mem_map_of_mem Prod.fst hm

lemma detected_language_mem (d : Option String) :
    detected_language d ∈ financial_keywords.map Prod.fst := by
  cases d with
  | none => decide
  | some l =>
    simp only [detected_language]
    split
    · rename_i h
      exact mem_keys_of_lookup l h
    · decide

/-- C8: the language field of every analysis is a key of the financial
keyword lexicon; whenever detection raised (`none`) or returned a code
absent from the lexicon, the language is forced to `"en"`. -/
theorem C8_language_normalization (text : String) (d : Option String)
    (a : List String) :
    (analyze_financial_content text d a).language
        ∈ financial_keywords.map Prod.fst
    ∧ (d = none → (analyze_financial_content text d a).language = "en")
    ∧ (∀ l, d = some l → lookupKeywords l = none →
        (analyze_financial_content text d a).language = "en") := by
  refine ⟨?_, ?_, ?_⟩
  · rw [analyze_language]
    exact detected_language_mem d
  · intro h
    subst h
    rfl
  · intro l hl hnone
    subst hl
    rw [analyze_language]
    unfold detected_language
    simp [hnone]

/-- C8 witness: an unknown detected code `"zz"` and a failed detection are
both normalized to `"en"`, a lexicon key. -/
theorem C8_witness :
    (analyze_financial_content "hello" (some "zz") []).language = "en"
    ∧ (analyze_financial_content "hello" none []).language = "en"
    ∧ (analyze_financial_content "hello" (some "zz") []).language
        ∈ financial_keywords.map Prod.fst :=
  ⟨(C8_language_normalization "hello" (some "zz") []).2.2 "zz" rfl (by decide),
   (C8_language_normalization "hello" none []).2.1 rfl,
   (C8_language_normalization "hello" (some "zz") []).1⟩

/-- C9: every result actually returned, in attachment or email-body mode,
has `financial_score >= 5`: a result needs `is_financial`, which requires
either score ≥ 15 or an amount match contributing at least
`min(1*5, 20) = 5` points. -/
theorem C9_min_returned_score (filename mime : String)
    (pdf : List (Option String)) (img dec : String) (d : Option String)
    (a : List String) (email_body subject : String) (d2 : Option String)
    (a2 links : List String) :
    5 ≤ ((process_attachment filename mime pdf img dec d a).map
        DocResult.financial_score).getD 5
    ∧ 5 ≤ ((analyze_email_content email_body subject d2 a2 links).map
        DocResult.financial_score).getD 5 := by
  constructor
  · simp only [process_attachment]
    split
    · simp
    · split
      · rename_i h
        simp only [Option.map_some', Option.getD_some]
        exact analyze_min_score _ _ _ h
      · simp
  · simp only [analyze_email_content]
    split
    · simp
    · split
      · rename_i h
        simp only [Option.map_some', Option.getD_some]
        have h5 := analyze_min_score _ _ _ h
        refine le_min ?_ (by omega)
        split <;> omega
      · simp
